import Mathlib

/-!
Shallow embedding of the grease API core: the authorization evaluation
engine and the attendance / absence-request / gig-request workflows, as
implemented in `src/grease/src/routes/event_routes.rs` and
`src/src/db/models/misc.rs`, together with the storage collaborator
semantics those routes rely on.  Model methods that live outside the
given sources (`User::has_permission`, the `check_for_permission!`
macro, and the entity model methods) are modelled from the spec and are
marked as such on their doc comments.
-/

namespace Grease

/-- The error taxonomy of the core (`GreaseError` in the source): a denial
carries the permission name that was being checked; precondition failures
carry a message; storage misses carry a message; storage/transaction
failures are unrecoverable. -/
inductive GreaseError where
  | forbidden (permission : Option String)
  | badRequest (message : String)
  | notFound (message : String)
  | dbError
deriving DecidableEq, Repr

/-- `GreaseResult<T>` from the source. -/
abbrev GreaseResult (α : Type) := Except GreaseError α

/-- Modelled from the spec: a role→permission grant, `(permission,
optional event-type scope)` as held by a principal; a grant with no
scope is a general grant. (`RolePermission` rows joined through the
principal's roles; the join itself is outside the given sources.) -/
structure Grant where
  permission : String
  event_type : Option String
deriving DecidableEq, Repr

/-- A member: identity (email) and nullable section affiliation. -/
structure Member where
  email : String
  section_ : Option String
deriving DecidableEq, Repr

/-- An `ActiveSemester` row: (member, semester, optional section). -/
structure ActiveSemester where
  member : String
  semester : String
  section_ : Option String
deriving DecidableEq, Repr

/-- The acting principal (`User` in the source): the member record, the
member's active-semester row if any, and the grants collected from every
role the principal holds. -/
structure User where
  member : Member
  active_semester : Option ActiveSemester
  grants : List Grant
deriving DecidableEq, Repr

/-- Modelled from the spec: a grant matches a request `(name, scope)` iff
its permission name equals the requested one AND (the grant has no scope
OR the grant's scope equals the requested scope). -/
def grantMatches (g : Grant) (name : String) (scope : Option String) : Bool :=
  g.permission == name && (g.event_type == none || g.event_type == scope)

/-- Modelled from the spec: `User::has_permission` — the authorization
check `check(principal, permission_name, scope)` succeeds iff at least
one grant held by the principal matches. -/
def User.has_permission (u : User) (name : String) (scope : Option String) : Bool :=
  u.grants.any (fun g => grantMatches g name scope)

/-- Modelled from the spec: the `check_for_permission!` macro /
`require(...)` form — aborts with `Forbidden(permission_name)` when the
check fails. -/
def require (u : User) (name : String) (scope : Option String) : GreaseResult Unit :=
  if u.has_permission name scope then Except.ok ()
  else Except.error (GreaseError.forbidden (some name))

/-- The grant-level authorization condition the spec states:
the principal holds a grant `(N, None)` or `(N, Some S)` where `S` is the
requested scope (possibly absent). -/
def holdsMatchingGrant (u : User) (name : String) (scope : Option String) : Prop :=
  ∃ g ∈ u.grants, g.permission = name ∧ (g.event_type = none ∨ g.event_type = scope)

theorem grantMatches_eq_true_iff (g : Grant) (name : String) (scope : Option String) :
    grantMatches g name scope = true ↔
      g.permission = name ∧ (g.event_type = none ∨ g.event_type = scope) := by
  simp [grantMatches]

theorem has_permission_iff (u : User) (name : String) (scope : Option String) :
    u.has_permission name scope = true ↔ holdsMatchingGrant u name scope := by
  simp only [User.has_permission, List.any_eq_true, holdsMatchingGrant]
  constructor
  · rintro ⟨g, hg, hm⟩
    exact ⟨g, hg, (grantMatches_eq_true_iff g name scope).mp hm⟩
  · rintro ⟨g, hg, hm⟩
    exact ⟨g, hg, (grantMatches_eq_true_iff g name scope).mpr hm⟩

theorem general_grant_has_permission (u : User) (name : String)
    (h : (⟨name, none⟩ : Grant) ∈ u.grants) (scope : Option String) :
    u.has_permission name scope = true := by
  exact (has_permission_iff u name scope).mpr ⟨⟨name, none⟩, h, rfl, Or.inl rfl⟩

/-- C1: for every principal, permission name and (possibly absent)
requested scope, the authorization check returns true iff the principal
holds a grant for that name that is either unscoped or scoped exactly to
the requested scope; and a principal holding an unscoped (general) grant
is authorized at every requested scope, including the absent one. -/
theorem check_iff_matching_grant (u : User) (name : String) (scope : Option String) :
    (u.has_permission name scope = true ↔ holdsMatchingGrant u name scope) ∧
      ((⟨name, none⟩ : Grant) ∈ u.grants → u.has_permission name scope = true) :=
  ⟨has_permission_iff u name scope, fun h => general_grant_has_permission u name h scope⟩

theorem check_iff_matching_grant_witness :
    let u : User := ⟨⟨"a@b.c", none⟩, none, [⟨"edit-attendance", none⟩]⟩
    (u.has_permission "edit-attendance" (some "rehearsal") = true ↔
        holdsMatchingGrant u "edit-attendance" (some "rehearsal")) ∧
      ((⟨"edit-attendance", none⟩ : Grant) ∈ u.grants →
        u.has_permission "edit-attendance" (some "rehearsal") = true) :=
  check_iff_matching_grant _ "edit-attendance" (some "rehearsal")

/-! ## The storage state and the entity rows -/

/-- An `Event` row: the fields the workflows read (type and semester). -/
structure Event where
  id : Int
  type_ : String
  semester : String
deriving DecidableEq, Repr

/-- An `Attendance` row, keyed by (member, event); fields per the data
model: rsvp (optional boolean), confirmed, excused, did-attend. -/
structure Attendance where
  member : String
  event : Int
  rsvp : Option Bool
  confirmed : Bool
  excused : Bool
  did_attend : Bool
deriving DecidableEq, Repr

/-- `AbsenceRequest.status ∈ {Pending, Approved, Denied}`. -/
inductive AbsenceRequestStatus where
  | pending
  | approved
  | denied
deriving DecidableEq, Repr

/-- An `AbsenceRequest` row, keyed by (member, event). -/
structure AbsenceRequest where
  member : String
  event : Int
  reason : String
  status : AbsenceRequestStatus
deriving DecidableEq, Repr

/-- `GigRequestStatus`: pending or dismissed, plus the terminal state a
request enters when events are created from it (called Converted by the
spec). -/
inductive GigRequestStatus where
  | pending
  | dismissed
  | converted
deriving DecidableEq, Repr

/-- A `GigRequest` row (the descriptive payload is irrelevant here). -/
structure GigRequest where
  id : Int
  status : GigRequestStatus
deriving DecidableEq, Repr

/-- A `GigSong` row: one setlist entry of an event. -/
structure GigSong where
  event : Int
  song : Int
  order : Int
deriving DecidableEq, Repr

/-- A `Todo` row as created by the fan-out (`text`, `member`). -/
structure TodoRow where
  text : String
  member : String
deriving DecidableEq, Repr

/-- `NewGigSong`: one entry of a submitted setlist. -/
structure NewGigSong where
  song : Int
deriving DecidableEq, Repr

/-- `NewTodo`: the text and the members the todo is fanned out to. -/
structure NewTodo where
  text : String
  members : List String
deriving DecidableEq, Repr

/-- `AttendanceForm`: the officer-editable attendance fields. -/
structure AttendanceForm where
  rsvp : Option Bool
  confirmed : Bool
  excused : Bool
  did_attend : Bool
deriving DecidableEq, Repr

/-- `NewAbsenceRequest`: the reason of a submitted absence request. -/
structure NewAbsenceRequest where
  reason : String
deriving DecidableEq, Repr

/-- `NewEvent`: the event-creation form. An extra occurrence count
models that a recurring form may create several events. -/
structure NewEvent where
  type_ : String
  semester : String
  extraOccurrences : Nat
deriving DecidableEq, Repr

/-- The storage collaborator's visible state: one list of rows per
table, plus a write counter (`tick`) against which the failure oracle
for fallible writes is evaluated. -/
structure Db where
  events : List Event
  members : List Member
  activeSemesters : List ActiveSemester
  attendance : List Attendance
  absenceRequests : List AbsenceRequest
  gigRequests : List GigRequest
  gigSongs : List GigSong
  todos : List TodoRow
  tick : Nat
deriving DecidableEq, Repr

/-- `Event::load`: point lookup by id, Not-Found on miss. -/
def Event.load (db : Db) (id : Int) : GreaseResult Event :=
  match db.events.find? (fun e => e.id == id) with
  | some e => Except.ok e
  | none => Except.error (GreaseError.notFound "event not found")

/-- Modelled from the spec: `ActiveSemester::load` — the member's row
for the given semester, if any. -/
def ActiveSemester.load (db : Db) (member : String) (semester : String) :
    Option ActiveSemester :=
  db.activeSemesters.find? (fun a => a.member == member && a.semester == semester)

/-- Modelled from the spec: `Attendance::load_for_event` — the roster of
(attendance, member) pairs for an event. -/
def Attendance.load_for_event (db : Db) (event_id : Int) :
    List (Attendance × Member) :=
  (db.attendance.filter (fun a => a.event == event_id)).filterMap
    (fun a => (db.members.find? (fun m => m.email == a.member)).map (fun m => (a, m)))

/-- Modelled from the spec: `Attendance::load` — point lookup by
(member, event), Not-Found on miss. -/
def Attendance.load (db : Db) (member : String) (event_id : Int) :
    GreaseResult Attendance :=
  match db.attendance.find? (fun a => a.member == member && a.event == event_id) with
  | some a => Except.ok a
  | none => Except.error (GreaseError.notFound "attendance not found")

/-- Modelled from the spec: `Attendance::update` — overwrite the
officer-editable fields of the (member, event) row,
update-or-error-if-missing. -/
def Attendance.update (db : Db) (event_id : Int) (member : String)
    (form : AttendanceForm) : GreaseResult Db :=
  if db.attendance.any (fun a => a.member == member && a.event == event_id) then
    Except.ok { db with attendance := db.attendance.map (fun a =>
      if a.member == member && a.event == event_id then
        { a with rsvp := form.rsvp, confirmed := form.confirmed,
                 excused := form.excused, did_attend := form.did_attend }
      else a) }
  else Except.error (GreaseError.notFound "attendance not found")

/-! ## Attendance views and mutations (`event_routes.rs`) -/

/-- `get_attendance` (event_routes.rs:231): full roster under a general
`view-attendance`; else the caller's own section under a type-scoped
`view-attendance-own-section` when the caller has a section; else
Forbidden("view-attendance"). -/
def get_attendance (db : Db) (id : Int) (user : User) :
    GreaseResult (List (Attendance × Member)) := do
  let event ← Event.load db id
  let member_section := user.member.section_
  let all_attendance := Attendance.load_for_event db id
  if user.has_permission "view-attendance" none then
    Except.ok all_attendance
  else if member_section.isSome
      && user.has_permission "view-attendance-own-section" (some event.type_) then
    Except.ok (all_attendance.filter (fun p => p.2.section_ == member_section))
  else
    Except.error (GreaseError.forbidden (some "view-attendance"))

/-- `get_member_attendance` (event_routes.rs:277): the permission check
runs only when the requested member differs from the caller. -/
def get_member_attendance (db : Db) (event_id : Int) (member : String)
    (user : User) : GreaseResult Attendance := do
  if member != user.member.email then
    let event ← Event.load db event_id
    require user "view-attendance" (some event.type_)
  Attendance.load db member event_id

/-- `update_attendance` (event_routes.rs:343): `edit-attendance` scoped
to the event's type, or `edit-attendance-own-section` so scoped when the
caller's section equals the target member's section for the event's
semester; otherwise Forbidden("edit-attendance"). -/
def update_attendance (db : Db) (event_id : Int) (member : String)
    (attendance_form : AttendanceForm) (user : User) : GreaseResult Db := do
  let event ← Event.load db event_id
  let user_section := user.active_semester.bind (fun a => a.section_)
  let member_section :=
    (ActiveSemester.load db member event.semester).bind (fun a => a.section_)
  if user.has_permission "edit-attendance" (some event.type_)
      || (user_section == member_section
          && user.has_permission "edit-attendance-own-section" (some event.type_)) then
    Attendance.update db event_id member attendance_form
  else
    Except.error (GreaseError.forbidden (some "edit-attendance"))

@[simp] theorem ok_bind {α β : Type} (a : α) (f : α → GreaseResult β) :
    (Except.ok a : GreaseResult α) >>= f = f a := rfl

@[simp] theorem error_bind {α β : Type} (e : GreaseError) (f : α → GreaseResult β) :
    (Except.error e : GreaseResult α) >>= f = Except.error e := rfl

theorem has_permission_none_iff (u : User) (name : String) :
    u.has_permission name none = true ↔ (⟨name, none⟩ : Grant) ∈ u.grants := by
  rw [has_permission_iff]
  constructor
  · rintro ⟨g, hg, hname, hscope⟩
    have hgen : g = ⟨name, none⟩ := by
      rcases hscope with h | h <;> (cases g; simp_all)
    rwa [hgen] at hg
  · intro h
    exact ⟨_, h, rfl, Or.inl rfl⟩

theorem Attendance.load_ne_forbidden (db : Db) (member : String) (event_id : Int)
    (p : Option String) :
    Attendance.load db member event_id ≠ Except.error (GreaseError.forbidden p) := by
  unfold Attendance.load
  cases db.attendance.find? (fun a => a.member == member && a.event == event_id) <;> simp

/-- C2: view contract of `get_attendance` — full roster under the general
`view-attendance` grant; else, when the caller has a section and holds
`view-attendance-own-section` for the event's type, exactly the rows
whose member's section equals the caller's; else
Forbidden("view-attendance"). -/
theorem get_attendance_view_contract (db : Db) (id : Int) (user : User) (event : Event)
    (hev : Event.load db id = Except.ok event) :
    ((⟨"view-attendance", none⟩ : Grant) ∈ user.grants →
        get_attendance db id user = Except.ok (Attendance.load_for_event db id)) ∧
      ((⟨"view-attendance", none⟩ : Grant) ∉ user.grants →
        user.member.section_.isSome = true →
        user.has_permission "view-attendance-own-section" (some event.type_) = true →
        get_attendance db id user =
          Except.ok ((Attendance.load_for_event db id).filter
            (fun p => p.2.section_ == user.member.section_))) ∧
      ((⟨"view-attendance", none⟩ : Grant) ∉ user.grants →
        (user.member.section_.isSome
          && user.has_permission "view-attendance-own-section" (some event.type_)) = false →
        get_attendance db id user =
          Except.error (GreaseError.forbidden (some "view-attendance"))) := by
  refine ⟨?_, ?_, ?_⟩
  · intro h
    have hp : user.has_permission "view-attendance" none = true :=
      (has_permission_none_iff user "view-attendance").mpr h
    simp [get_attendance, hev, hp]
  · intro h hs hp2
    have hp : ¬ user.has_permission "view-attendance" none = true :=
      fun hc => h ((has_permission_none_iff user "view-attendance").mp hc)
    simp [get_attendance, hev, hp, hs, hp2]
  · intro h hc2
    have hp : ¬ user.has_permission "view-attendance" none = true :=
      fun hc => h ((has_permission_none_iff user "view-attendance").mp hc)
    have hnot : ¬ (user.member.section_.isSome = true ∧
        user.has_permission "view-attendance-own-section" (some event.type_) = true) := by
      rintro ⟨h1, h2⟩
      simp [h1, h2] at hc2
    simp [get_attendance, hev, hp, hnot]

theorem get_attendance_view_contract_witness :
    let db : Db :=
      { events := [⟨1, "rehearsal", "Fall 2019"⟩], members := [⟨"a@b.c", some "Tenor 1"⟩],
        activeSemesters := [], attendance := [⟨"a@b.c", 1, none, false, false, false⟩],
        absenceRequests := [], gigRequests := [], gigSongs := [], todos := [], tick := 0 }
    let user : User := ⟨⟨"a@b.c", some "Tenor 1"⟩, none, [⟨"view-attendance", none⟩]⟩
    Event.load db 1 = Except.ok ⟨1, "rehearsal", "Fall 2019"⟩ ∧
      (((⟨"view-attendance", none⟩ : Grant) ∈ user.grants →
          get_attendance db 1 user = Except.ok (Attendance.load_for_event db 1)) ∧
        ((⟨"view-attendance", none⟩ : Grant) ∉ user.grants →
          user.member.section_.isSome = true →
          user.has_permission "view-attendance-own-section" (some "rehearsal") = true →
          get_attendance db 1 user =
            Except.ok ((Attendance.load_for_event db 1).filter
              (fun p => p.2.section_ == user.member.section_))) ∧
        ((⟨"view-attendance", none⟩ : Grant) ∉ user.grants →
          (user.member.section_.isSome
            && user.has_permission "view-attendance-own-section" (some "rehearsal")) = false →
          get_attendance db 1 user =
            Except.error (GreaseError.forbidden (some "view-attendance")))) :=
  ⟨rfl, get_attendance_view_contract _ 1 _ ⟨1, "rehearsal", "Fall 2019"⟩ rfl⟩

/-- C9: `get_member_attendance` on the caller's own record is exactly the
bare attendance lookup — no permission check, never Forbidden; for a
different member the `view-attendance` check (against the event's type)
is enforced. -/
theorem get_member_attendance_own_record (db : Db) (event_id : Int) (member : String)
    (user : User) :
    (member = user.member.email →
        get_member_attendance db event_id member user =
            Attendance.load db member event_id ∧
          ∀ p, get_member_attendance db event_id member user ≠
            Except.error (GreaseError.forbidden p)) ∧
      (member ≠ user.member.email →
        ∀ event, Event.load db event_id = Except.ok event →
          user.has_permission "view-attendance" (some event.type_) = false →
          get_member_attendance db event_id member user =
            Except.error (GreaseError.forbidden (some "view-attendance"))) := by
  constructor
  · intro h
    have heq : get_member_attendance db event_id member user =
        Attendance.load db member event_id := by
      simp [get_member_attendance, h]
    exact ⟨heq, fun p => heq ▸ Attendance.load_ne_forbidden db member event_id p⟩
  · intro h event hev hp
    have hbne : (member != user.member.email) = true := by
      simpa using h
    simp [get_member_attendance, hbne, hev, require, hp]

theorem get_member_attendance_own_record_witness :
    let db : Db :=
      { events := [⟨1, "rehearsal", "Fall 2019"⟩], members := [⟨"a@b.c", none⟩],
        activeSemesters := [], attendance := [⟨"a@b.c", 1, none, false, false, false⟩],
        absenceRequests := [], gigRequests := [], gigSongs := [], todos := [], tick := 0 }
    let user : User := ⟨⟨"a@b.c", none⟩, none, []⟩
    ("a@b.c" = user.member.email →
        get_member_attendance db 1 "a@b.c" user = Attendance.load db "a@b.c" 1 ∧
          ∀ p, get_member_attendance db 1 "a@b.c" user ≠
            Except.error (GreaseError.forbidden p)) ∧
      ("a@b.c" ≠ user.member.email →
        ∀ event, Event.load db 1 = Except.ok event →
          user.has_permission "view-attendance" (some event.type_) = false →
          get_member_attendance db 1 "a@b.c" user =
            Except.error (GreaseError.forbidden (some "view-attendance"))) :=
  get_member_attendance_own_record _ 1 "a@b.c" _

/-- C3: `update_attendance` performs the update exactly when the caller
holds `edit-attendance` (general or scoped to the event's type), or holds
`edit-attendance-own-section` (general or so scoped) while the caller's
section equals the target member's section for the event's semester;
otherwise it fails with Forbidden("edit-attendance") and no update is
applied. -/
theorem update_attendance_auth (db : Db) (event_id : Int) (member : String)
    (form : AttendanceForm) (user : User) (event : Event)
    (hev : Event.load db event_id = Except.ok event) :
    ((holdsMatchingGrant user "edit-attendance" (some event.type_) ∨
        (user.active_semester.bind (fun a => a.section_) =
            (ActiveSemester.load db member event.semester).bind (fun a => a.section_) ∧
          holdsMatchingGrant user "edit-attendance-own-section" (some event.type_))) →
      update_attendance db event_id member form user =
        Attendance.update db event_id member form) ∧
    (¬(holdsMatchingGrant user "edit-attendance" (some event.type_) ∨
        (user.active_semester.bind (fun a => a.section_) =
            (ActiveSemester.load db member event.semester).bind (fun a => a.section_) ∧
          holdsMatchingGrant user "edit-attendance-own-section" (some event.type_))) →
      update_attendance db event_id member form user =
        Except.error (GreaseError.forbidden (some "edit-attendance"))) := by
  have hcond : (user.has_permission "edit-attendance" (some event.type_)
      || ((user.active_semester.bind (fun a => a.section_) ==
            (ActiveSemester.load db member event.semester).bind (fun a => a.section_))
          && user.has_permission "edit-attendance-own-section" (some event.type_))) = true ↔
      (holdsMatchingGrant user "edit-attendance" (some event.type_) ∨
        (user.active_semester.bind (fun a => a.section_) =
            (ActiveSemester.load db member event.semester).bind (fun a => a.section_) ∧
          holdsMatchingGrant user "edit-attendance-own-section" (some event.type_))) := by
    simp [has_permission_iff]
  constructor
  · intro h
    have hb := hcond.mpr h
    simp only [update_attendance, hev, ok_bind]
    rw [if_pos hb]
  · intro h
    have hb : ¬ (user.has_permission "edit-attendance" (some event.type_)
        || ((user.active_semester.bind (fun a => a.section_) ==
              (ActiveSemester.load db member event.semester).bind (fun a => a.section_))
            && user.has_permission "edit-attendance-own-section" (some event.type_))) = true :=
      fun hc => h (hcond.mp hc)
    simp only [update_attendance, hev, ok_bind]
    rw [if_neg hb]

theorem update_attendance_auth_witness :
    let db : Db :=
      { events := [⟨1, "rehearsal", "Fall 2019"⟩], members := [⟨"a@b.c", none⟩],
        activeSemesters := [⟨"a@b.c", "Fall 2019", some "Tenor 1"⟩],
        attendance := [⟨"a@b.c", 1, none, false, false, false⟩],
        absenceRequests := [], gigRequests := [], gigSongs := [], todos := [], tick := 0 }
    let user : User :=
      ⟨⟨"officer@b.c", none⟩, some ⟨"officer@b.c", "Fall 2019", some "Tenor 2"⟩,
        [⟨"edit-attendance-own-section", some "rehearsal"⟩]⟩
    let form : AttendanceForm := ⟨some true, true, false, false⟩
    ((holdsMatchingGrant user "edit-attendance" (some "rehearsal") ∨
        (user.active_semester.bind (fun a => a.section_) =
            (ActiveSemester.load db "a@b.c" "Fall 2019").bind (fun a => a.section_) ∧
          holdsMatchingGrant user "edit-attendance-own-section" (some "rehearsal"))) →
      update_attendance db 1 "a@b.c" form user = Attendance.update db 1 "a@b.c" form) ∧
    (¬(holdsMatchingGrant user "edit-attendance" (some "rehearsal") ∨
        (user.active_semester.bind (fun a => a.section_) =
            (ActiveSemester.load db "a@b.c" "Fall 2019").bind (fun a => a.section_) ∧
          holdsMatchingGrant user "edit-attendance-own-section" (some "rehearsal"))) →
      update_attendance db 1 "a@b.c" form user =
        Except.error (GreaseError.forbidden (some "edit-attendance"))) :=
  update_attendance_auth _ 1 "a@b.c" _ _ ⟨1, "rehearsal", "Fall 2019"⟩ rfl

/-! ## Absence requests (`event_routes.rs` routes; entity methods modelled) -/

/-- Modelled from the spec: `AbsenceRequest::create` — uniqueness is
enforced before insert: a second request for the same (member, event)
fails with BadRequest; otherwise a Pending request is inserted. -/
def AbsenceRequest.create (db : Db) (member : String) (event_id : Int)
    (reason : String) : GreaseResult Db :=
  if db.absenceRequests.any (fun r => r.member == member && r.event == event_id) then
    Except.error (GreaseError.badRequest
      "an absence request already exists for this member and event")
  else
    Except.ok { db with absenceRequests :=
      db.absenceRequests ++ [⟨member, event_id, reason, AbsenceRequestStatus.pending⟩] }

/-- Modelled from the spec: deciding an absence request is only legal
from Pending; repeating on an already-decided request fails with
BadRequest and overwrites nothing. -/
def AbsenceRequest.decide (db : Db) (member : String) (event_id : Int)
    (status : AbsenceRequestStatus) : GreaseResult Db :=
  match db.absenceRequests.find? (fun r => r.member == member && r.event == event_id) with
  | none => Except.error (GreaseError.notFound "absence request not found")
  | some r =>
    if r.status == AbsenceRequestStatus.pending then
      Except.ok { db with absenceRequests := db.absenceRequests.map (fun r2 =>
        if r2.member == member && r2.event == event_id then { r2 with status := status }
        else r2) }
    else
      Except.error (GreaseError.badRequest "the absence request has already been decided")

/-- Modelled from the spec: `AbsenceRequest::approve`. -/
def AbsenceRequest.approve (db : Db) (member : String) (event_id : Int) :
    GreaseResult Db :=
  AbsenceRequest.decide db member event_id AbsenceRequestStatus.approved

/-- Modelled from the spec: `AbsenceRequest::deny`. -/
def AbsenceRequest.deny (db : Db) (member : String) (event_id : Int) :
    GreaseResult Db :=
  AbsenceRequest.decide db member event_id AbsenceRequestStatus.denied

/-- `submit_absence_request` (event_routes.rs:537): inserts a request
for the caller. -/
def submit_absence_request (db : Db) (event_id : Int)
    (new_request : NewAbsenceRequest) (user : User) : GreaseResult Db :=
  AbsenceRequest.create db user.member.email event_id new_request.reason

/-- `approve_absence_request` (event_routes.rs:560): requires the
general `process-absence-requests`. -/
def approve_absence_request (db : Db) (event_id : Int) (member : String)
    (user : User) : GreaseResult Db := do
  require user "process-absence-requests" none
  AbsenceRequest.approve db member event_id

/-- `deny_absence_request` (event_routes.rs:578): requires the general
`process-absence-requests`. -/
def deny_absence_request (db : Db) (event_id : Int) (member : String)
    (user : User) : GreaseResult Db := do
  require user "process-absence-requests" none
  AbsenceRequest.deny db member event_id

/-- C5: a duplicate (member, event) submission fails with BadRequest and
inserts nothing (a fresh one inserts a Pending row); approve/deny demand
the general unscoped `process-absence-requests` grant; and on a request
that is no longer Pending both fail with BadRequest, leaving the
terminal decision in place. -/
theorem absence_request_lifecycle (db : Db) (event_id : Int)
    (new_request : NewAbsenceRequest) (member : String) (user : User) :
    (db.absenceRequests.any
        (fun r => r.member == user.member.email && r.event == event_id) = true →
      submit_absence_request db event_id new_request user =
        Except.error (GreaseError.badRequest
          "an absence request already exists for this member and event")) ∧
    (db.absenceRequests.any
        (fun r => r.member == user.member.email && r.event == event_id) = false →
      submit_absence_request db event_id new_request user =
        Except.ok { db with absenceRequests := db.absenceRequests ++
          [⟨user.member.email, event_id, new_request.reason,
            AbsenceRequestStatus.pending⟩] }) ∧
    ((⟨"process-absence-requests", none⟩ : Grant) ∉ user.grants →
      approve_absence_request db event_id member user =
          Except.error (GreaseError.forbidden (some "process-absence-requests")) ∧
        deny_absence_request db event_id member user =
          Except.error (GreaseError.forbidden (some "process-absence-requests"))) ∧
    ((⟨"process-absence-requests", none⟩ : Grant) ∈ user.grants →
      ∀ r, db.absenceRequests.find?
          (fun r => r.member == member && r.event == event_id) = some r →
        r.status ≠ AbsenceRequestStatus.pending →
        approve_absence_request db event_id member user =
            Except.error (GreaseError.badRequest
              "the absence request has already been decided") ∧
          deny_absence_request db event_id member user =
            Except.error (GreaseError.badRequest
              "the absence request has already been decided")) := by
  refine ⟨?_, ?_, ?_, ?_⟩
  · intro h
    simp [submit_absence_request, AbsenceRequest.create, h]
  · intro h
    simp [submit_absence_request, AbsenceRequest.create, h]
  · intro h
    have hp : ¬ user.has_permission "process-absence-requests" none = true :=
      fun hc => h ((has_permission_none_iff user "process-absence-requests").mp hc)
    constructor <;>
      simp [approve_absence_request, deny_absence_request, require, hp]
  · intro h r hr hst
    have hp : user.has_permission "process-absence-requests" none = true :=
      (has_permission_none_iff user "process-absence-requests").mpr h
    have hstb : ¬ (r.status == AbsenceRequestStatus.pending) = true := by
      simpa using hst
    constructor <;>
      simp [approve_absence_request, deny_absence_request, require, hp,
        AbsenceRequest.approve, AbsenceRequest.deny, AbsenceRequest.decide, hr, hstb]

theorem absence_request_lifecycle_witness :
    let db : Db :=
      { events := [⟨1, "rehearsal", "Fall 2019"⟩], members := [⟨"a@b.c", none⟩],
        activeSemesters := [], attendance := [],
        absenceRequests := [⟨"a@b.c", 1, "sick", AbsenceRequestStatus.approved⟩],
        gigRequests := [], gigSongs := [], todos := [], tick := 0 }
    let user : User := ⟨⟨"a@b.c", none⟩, none, [⟨"process-absence-requests", none⟩]⟩
    let req : NewAbsenceRequest := ⟨"sick again"⟩
    (db.absenceRequests.any
        (fun r => r.member == user.member.email && r.event == (1 : Int)) = true →
      submit_absence_request db 1 req user =
        Except.error (GreaseError.badRequest
          "an absence request already exists for this member and event")) ∧
    (db.absenceRequests.any
        (fun r => r.member == user.member.email && r.event == (1 : Int)) = false →
      submit_absence_request db 1 req user =
        Except.ok { db with absenceRequests := db.absenceRequests ++
          [⟨user.member.email, 1, req.reason, AbsenceRequestStatus.pending⟩] }) ∧
    ((⟨"process-absence-requests", none⟩ : Grant) ∉ user.grants →
      approve_absence_request db 1 "a@b.c" user =
          Except.error (GreaseError.forbidden (some "process-absence-requests")) ∧
        deny_absence_request db 1 "a@b.c" user =
          Except.error (GreaseError.forbidden (some "process-absence-requests"))) ∧
    ((⟨"process-absence-requests", none⟩ : Grant) ∈ user.grants →
      ∀ r, db.absenceRequests.find?
          (fun r => r.member == "a@b.c" && r.event == (1 : Int)) = some r →
        r.status ≠ AbsenceRequestStatus.pending →
        approve_absence_request db 1 "a@b.c" user =
            Except.error (GreaseError.badRequest
              "the absence request has already been decided") ∧
          deny_absence_request db 1 "a@b.c" user =
            Except.error (GreaseError.badRequest
              "the absence request has already been decided")) :=
  absence_request_lifecycle _ 1 _ "a@b.c" _

/-! ## Gig requests (`event_routes.rs` routes; entity methods modelled) -/

/-- `GigRequest::load`: point lookup by id, Not-Found on miss. -/
def GigRequest.load (db : Db) (id : Int) : GreaseResult GigRequest :=
  match db.gigRequests.find? (fun r => r.id == id) with
  | some r => Except.ok r
  | none => Except.error (GreaseError.notFound "gig request not found")

/-- Modelled from the spec: `GigRequest::set_status` — the only
transitions are Pending ⇄ Dismissed; a Converted request is terminal and
the attempted transition is rejected. -/
def GigRequest.set_status (db : Db) (request_id : Int) (status : GigRequestStatus) :
    GreaseResult Db := do
  let request ← GigRequest.load db request_id
  if request.status == GigRequestStatus.converted then
    Except.error (GreaseError.badRequest "a converted gig request cannot be modified")
  else
    Except.ok { db with gigRequests := db.gigRequests.map (fun r =>
      if r.id == request_id then { r with status := status } else r) }

/-- `dismiss_gig_request` (event_routes.rs:701). -/
def dismiss_gig_request (db : Db) (request_id : Int) (user : User) :
    GreaseResult Db := do
  require user "process-gig-requests" none
  GigRequest.set_status db request_id GigRequestStatus.dismissed

/-- `reopen_gig_request` (event_routes.rs:715). -/
def reopen_gig_request (db : Db) (request_id : Int) (user : User) :
    GreaseResult Db := do
  require user "process-gig-requests" none
  GigRequest.set_status db request_id GigRequestStatus.pending

/-- The next fresh event id. -/
def nextEventId (db : Db) : Int := (db.events.map (fun e => e.id)).foldr max 0 + 1

/-- The events a creation form gives rise to: one per occurrence, ids
assigned from the next fresh id upward. -/
def createdEvents (db : Db) (form : NewEvent) : List Event :=
  (List.range (form.extraOccurrences + 1)).map
    (fun i => { id := nextEventId db + i, type_ := form.type_,
                semester := form.semester })

/-- Modelled from the spec: `Event::create` — creates one or more events
from the form (a recurring form creates several); when the creation
converts a gig request, that request is marked Converted; returns the id
of the first created event. -/
def Event.create (db : Db) (form : NewEvent) (from_request : Option GigRequest) :
    GreaseResult (Db × Int) :=
  let db2 := { db with events := db.events ++ createdEvents db form }
  let db3 := match from_request with
    | some request => { db2 with gigRequests := db2.gigRequests.map (fun r =>
        if r.id == request.id then { r with status := GigRequestStatus.converted }
        else r) }
    | none => db2
  Except.ok (db3, nextEventId db)

/-- `create_event_from_gig_request` (event_routes.rs:744). -/
def create_event_from_gig_request (db : Db) (request_id : Int) (form : NewEvent)
    (user : User) : GreaseResult (Db × Int) := do
  require user "process-gig-requests" none
  let request ← GigRequest.load db request_id
  if request.status != GigRequestStatus.pending then
    Except.error (GreaseError.badRequest
      "The gig request must be pending to create an event for it.")
  else
    Event.create db form (some request)

theorem find_map_set_gig_status (l : List GigRequest) (rid : Int)
    (s : GigRequestStatus) (r : GigRequest)
    (h : l.find? (fun r2 => r2.id == rid) = some r) :
    (l.map (fun r2 => if r2.id == rid then { r2 with status := s } else r2)).find?
        (fun r2 => r2.id == rid) = some { r with status := s } := by
  induction l with
  | nil => simp at h
  | cons a t ih =>
    simp only [List.map_cons]
    by_cases ha : (a.id == rid) = true
    · have ha1 : (fun r2 : GigRequest => r2.id == rid) a = true := ha
      rw [List.find?_cons_of_pos t ha1] at h
      injection h with h
      subst h
      rw [if_pos ha]
      have ha2 : (fun r2 : GigRequest => r2.id == rid) { a with status := s } = true := by
        simpa using ha
      exact List.find?_cons_of_pos _ ha2
    · have ha1 : ¬ (fun r2 : GigRequest => r2.id == rid) a = true := ha
      rw [@List.find?_cons_of_neg GigRequest (fun r2 => r2.id == rid) a t ha1] at h
      rw [if_neg ha]
      rw [@List.find?_cons_of_neg GigRequest (fun r2 => r2.id == rid) a _ ha1]
      exact ih h

theorem gig_request_id_of_find (l : List GigRequest) (rid : Int) (r : GigRequest)
    (h : l.find? (fun r2 => r2.id == rid) = some r) : r.id = rid := by
  have := List.find?_some h
  simpa using this

/-- C4: converting a gig request succeeds only when the caller holds the
general `process-gig-requests` grant (a caller without it is refused
with Forbidden) and the request is Pending: on success the event(s) are
created, the request becomes Converted, the id of the first created
event is returned, and no later conversion of the same request can ever
succeed; from Dismissed or Converted it fails with BadRequest ("must be
pending"). -/
theorem create_event_from_gig_request_once (db : Db) (request_id : Int)
    (form : NewEvent) (user : User) (request : GigRequest)
    (hreq : GigRequest.load db request_id = Except.ok request) :
    ((⟨"process-gig-requests", none⟩ : Grant) ∉ user.grants →
      create_event_from_gig_request db request_id form user =
        Except.error (GreaseError.forbidden (some "process-gig-requests"))) ∧
    ((⟨"process-gig-requests", none⟩ : Grant) ∈ user.grants →
      request.status ≠ GigRequestStatus.pending →
      create_event_from_gig_request db request_id form user =
        Except.error (GreaseError.badRequest
          "The gig request must be pending to create an event for it.")) ∧
    ((⟨"process-gig-requests", none⟩ : Grant) ∈ user.grants →
      request.status = GigRequestStatus.pending →
      ∃ db2, create_event_from_gig_request db request_id form user =
          Except.ok (db2, nextEventId db) ∧
        db2.events = db.events ++ createdEvents db form ∧
        GigRequest.load db2 request_id =
          Except.ok ⟨request_id, GigRequestStatus.converted⟩ ∧
        ∀ form2 user2 out,
          create_event_from_gig_request db2 request_id form2 user2 ≠
            Except.ok out) := by
  have hfind : db.gigRequests.find? (fun r2 => r2.id == request_id) = some request := by
    unfold GigRequest.load at hreq
    cases hf : db.gigRequests.find? (fun r2 => r2.id == request_id) with
    | none => rw [hf] at hreq; exact absurd hreq (by simp)
    | some r => rw [hf] at hreq; injection hreq with hreq; rw [hreq]
  have hid : request.id = request_id := gig_request_id_of_find _ _ _ hfind
  refine ⟨?_, ?_, ?_⟩
  · intro h
    have hp : ¬ user.has_permission "process-gig-requests" none = true :=
      fun hc => h ((has_permission_none_iff user "process-gig-requests").mp hc)
    unfold create_event_from_gig_request require
    rw [if_neg hp]
    rfl
  · intro hgrant hst
    have hp : user.has_permission "process-gig-requests" none = true :=
      (has_permission_none_iff user "process-gig-requests").mpr hgrant
    have hstb : (request.status != GigRequestStatus.pending) = true := by
      simpa using hst
    unfold create_event_from_gig_request require
    rw [if_pos hp, ok_bind, hreq, ok_bind, if_pos hstb]
  · intro hgrant hst
    have hp : user.has_permission "process-gig-requests" none = true :=
      (has_permission_none_iff user "process-gig-requests").mpr hgrant
    have hstb : ¬ (request.status != GigRequestStatus.pending) = true := by
      simp [hst]
    have hmap := find_map_set_gig_status db.gigRequests request_id
      GigRequestStatus.converted request hfind
    refine
      ⟨{ db with
           events := db.events ++ createdEvents db form,
           gigRequests := db.gigRequests.map (fun r =>
             if r.id == request_id then { r with status := GigRequestStatus.converted }
             else r) },
        ?_, rfl, ?_, ?_⟩
    · unfold create_event_from_gig_request require
      rw [if_pos hp, ok_bind, hreq, ok_bind, if_neg hstb]
      simp only [Event.create]
      rw [hid]
    · simp only [GigRequest.load]
      rw [hmap]
      rw [hid]
    · intro form2 user2 out
      by_cases hp2 : user2.has_permission "process-gig-requests" none = true
      · unfold create_event_from_gig_request require
        rw [if_pos hp2, ok_bind]
        simp only [GigRequest.load]
        rw [hmap]
        simp
      · unfold create_event_from_gig_request require
        rw [if_neg hp2]
        simp

theorem create_event_from_gig_request_once_witness :
    let db : Db :=
      { events := [], members := [], activeSemesters := [], attendance := [],
        absenceRequests := [],
        gigRequests := [⟨7, GigRequestStatus.pending⟩],
        gigSongs := [], todos := [], tick := 0 }
    let user : User := ⟨⟨"o@b.c", none⟩, none, [⟨"process-gig-requests", none⟩]⟩
    let form : NewEvent := ⟨"gig", "Fall 2019", 1⟩
    ((⟨"process-gig-requests", none⟩ : Grant) ∉ user.grants →
      create_event_from_gig_request db 7 form user =
        Except.error (GreaseError.forbidden (some "process-gig-requests"))) ∧
    ((⟨"process-gig-requests", none⟩ : Grant) ∈ user.grants →
      (⟨7, GigRequestStatus.pending⟩ : GigRequest).status ≠ GigRequestStatus.pending →
      create_event_from_gig_request db 7 form user =
        Except.error (GreaseError.badRequest
          "The gig request must be pending to create an event for it.")) ∧
    ((⟨"process-gig-requests", none⟩ : Grant) ∈ user.grants →
      (⟨7, GigRequestStatus.pending⟩ : GigRequest).status = GigRequestStatus.pending →
      ∃ db2, create_event_from_gig_request db 7 form user =
          Except.ok (db2, nextEventId db) ∧
        db2.events = db.events ++ createdEvents db form ∧
        GigRequest.load db2 7 = Except.ok ⟨7, GigRequestStatus.converted⟩ ∧
        ∀ form2 user2 out,
          create_event_from_gig_request db2 7 form2 user2 ≠ Except.ok out) :=
  create_event_from_gig_request_once _ 7 _ _ ⟨7, GigRequestStatus.pending⟩ rfl

/-- C6: a Converted gig request is terminal — neither `dismiss` nor
`reopen` can ever succeed on it, and with the required grant both are
rejected as BadRequest. -/
theorem converted_gig_request_terminal (db : Db) (request_id : Int) (user : User)
    (request : GigRequest)
    (hreq : GigRequest.load db request_id = Except.ok request)
    (hst : request.status = GigRequestStatus.converted) :
    (∀ db2, dismiss_gig_request db request_id user ≠ Except.ok db2) ∧
      (∀ db2, reopen_gig_request db request_id user ≠ Except.ok db2) ∧
      (user.has_permission "process-gig-requests" none = true →
        dismiss_gig_request db request_id user =
            Except.error (GreaseError.badRequest
              "a converted gig request cannot be modified") ∧
          reopen_gig_request db request_id user =
            Except.error (GreaseError.badRequest
              "a converted gig request cannot be modified")) := by
  have hstb : (request.status == GigRequestStatus.converted) = true := by
    simp [hst]
  have hdis : ∀ hp : user.has_permission "process-gig-requests" none = true,
      dismiss_gig_request db request_id user =
        Except.error (GreaseError.badRequest
          "a converted gig request cannot be modified") := by
    intro hp
    unfold dismiss_gig_request require GigRequest.set_status
    rw [if_pos hp, ok_bind, hreq, ok_bind, if_pos hstb]
  have hreo : ∀ hp : user.has_permission "process-gig-requests" none = true,
      reopen_gig_request db request_id user =
        Except.error (GreaseError.badRequest
          "a converted gig request cannot be modified") := by
    intro hp
    unfold reopen_gig_request require GigRequest.set_status
    rw [if_pos hp, ok_bind, hreq, ok_bind, if_pos hstb]
  refine ⟨?_, ?_, ?_⟩
  · intro db2
    by_cases hp : user.has_permission "process-gig-requests" none = true
    · rw [hdis hp]; simp
    · unfold dismiss_gig_request require
      rw [if_neg hp]
      simp
  · intro db2
    by_cases hp : user.has_permission "process-gig-requests" none = true
    · rw [hreo hp]; simp
    · unfold reopen_gig_request require
      rw [if_neg hp]
      simp
  · intro hp
    exact ⟨hdis hp, hreo hp⟩

theorem converted_gig_request_terminal_witness :
    let db : Db :=
      { events := [], members := [], activeSemesters := [], attendance := [],
        absenceRequests := [],
        gigRequests := [⟨7, GigRequestStatus.converted⟩],
        gigSongs := [], todos := [], tick := 0 }
    let user : User := ⟨⟨"o@b.c", none⟩, none, [⟨"process-gig-requests", none⟩]⟩
    (∀ db2, dismiss_gig_request db 7 user ≠ Except.ok db2) ∧
      (∀ db2, reopen_gig_request db 7 user ≠ Except.ok db2) ∧
      (user.has_permission "process-gig-requests" none = true →
        dismiss_gig_request db 7 user =
            Except.error (GreaseError.badRequest
              "a converted gig request cannot be modified") ∧
          reopen_gig_request db 7 user =
            Except.error (GreaseError.badRequest
              "a converted gig request cannot be modified")) :=
  converted_gig_request_terminal _ 7 _ ⟨7, GigRequestStatus.converted⟩ rfl rfl

/-! ## Bulk excusal (`excuse_unconfirmed_for_event`) -/

/-- Modelled from the spec: `AbsenceRequest::excused_for_event` — true
iff an Approved request exists for (member, event). -/
def AbsenceRequest.excused_for_event (db : Db) (member : String) (event_id : Int) :
    Bool :=
  db.absenceRequests.any (fun r =>
    r.member == member && r.event == event_id
      && r.status == AbsenceRequestStatus.approved)

/-- One row of the excusal sweep: an eligible member's row at the event
that is not Confirmed and has no Approved absence request becomes
excused; every other row is untouched. -/
def excuseRow (db : Db) (event_id : Int) (a : Attendance) : Attendance :=
  if a.event == event_id && !a.confirmed
      && !(AbsenceRequest.excused_for_event db a.member event_id) then
    { a with excused := true }
  else a

/-- Modelled from the spec: `Attendance::excuse_unconfirmed` — the sweep
over every attendance row of the event, one atomic batch. -/
def Attendance.excuse_unconfirmed (db : Db) (event_id : Int) : Db :=
  { db with attendance := db.attendance.map (excuseRow db event_id) }

/-- `excuse_unconfirmed_for_event` (event_routes.rs:380). -/
def excuse_unconfirmed_for_event (db : Db) (event_id : Int) (user : User) :
    GreaseResult Db := do
  let event ← Event.load db event_id
  require user "edit-attendance" (some event.type_)
  Except.ok (Attendance.excuse_unconfirmed db event_id)

/-- C7: the sweep demands `edit-attendance` (general or scoped to the
event's type); it then rewrites the attendance rows in one batch, where
a Confirmed row or a row covered by an Approved absence request is left
unchanged and every other row of the event becomes excused. -/
theorem excuse_unconfirmed_contract (db : Db) (event_id : Int) (user : User)
    (event : Event) (hev : Event.load db event_id = Except.ok event) :
    (¬ holdsMatchingGrant user "edit-attendance" (some event.type_) →
      excuse_unconfirmed_for_event db event_id user =
        Except.error (GreaseError.forbidden (some "edit-attendance"))) ∧
    (holdsMatchingGrant user "edit-attendance" (some event.type_) →
      excuse_unconfirmed_for_event db event_id user =
        Except.ok { db with attendance := db.attendance.map (excuseRow db event_id) }) ∧
    (∀ a : Attendance,
      (a.confirmed = true → excuseRow db event_id a = a) ∧
      (AbsenceRequest.excused_for_event db a.member event_id = true →
        excuseRow db event_id a = a) ∧
      (a.event = event_id → a.confirmed = false →
        AbsenceRequest.excused_for_event db a.member event_id = false →
        excuseRow db event_id a = { a with excused := true })) := by
  refine ⟨?_, ?_, ?_⟩
  · intro h
    have hp : ¬ user.has_permission "edit-attendance" (some event.type_) = true :=
      fun hc => h ((has_permission_iff user "edit-attendance" (some event.type_)).mp hc)
    unfold excuse_unconfirmed_for_event require
    rw [hev, ok_bind, if_neg hp]
    rfl
  · intro h
    have hp : user.has_permission "edit-attendance" (some event.type_) = true :=
      (has_permission_iff user "edit-attendance" (some event.type_)).mpr h
    unfold excuse_unconfirmed_for_event require
    rw [hev, ok_bind, if_pos hp, ok_bind]
    rfl
  · intro a
    refine ⟨?_, ?_, ?_⟩
    · intro hc
      simp [excuseRow, hc]
    · intro he
      simp [excuseRow, he]
    · intro hev2 hc he
      simp [excuseRow, hev2, hc, he]

theorem excuse_unconfirmed_contract_witness :
    let db : Db :=
      { events := [⟨1, "rehearsal", "Fall 2019"⟩],
        members := [⟨"a@b.c", none⟩, ⟨"b@b.c", none⟩, ⟨"c@b.c", none⟩],
        activeSemesters := [],
        attendance := [⟨"a@b.c", 1, some true, true, false, false⟩,
          ⟨"b@b.c", 1, none, false, false, false⟩,
          ⟨"c@b.c", 1, none, false, false, false⟩],
        absenceRequests := [⟨"b@b.c", 1, "sick", AbsenceRequestStatus.approved⟩],
        gigRequests := [], gigSongs := [], todos := [], tick := 0 }
    let user : User := ⟨⟨"o@b.c", none⟩, none, [⟨"edit-attendance", some "rehearsal"⟩]⟩
    (¬ holdsMatchingGrant user "edit-attendance" (some "rehearsal") →
      excuse_unconfirmed_for_event db 1 user =
        Except.error (GreaseError.forbidden (some "edit-attendance"))) ∧
    (holdsMatchingGrant user "edit-attendance" (some "rehearsal") →
      excuse_unconfirmed_for_event db 1 user =
        Except.ok { db with attendance := db.attendance.map (excuseRow db 1) }) ∧
    (∀ a : Attendance,
      (a.confirmed = true → excuseRow db 1 a = a) ∧
      (AbsenceRequest.excused_for_event db a.member 1 = true →
        excuseRow db 1 a = a) ∧
      (a.event = 1 → a.confirmed = false →
        AbsenceRequest.excused_for_event db a.member 1 = false →
        excuseRow db 1 a = { a with excused := true })) :=
  excuse_unconfirmed_contract _ 1 _ ⟨1, "rehearsal", "Fall 2019"⟩ rfl

/-! ## Multi-row writes and the transaction scope (`misc.rs`) -/

/-- One primitive row write against storage: it consults the failure
oracle at the current tick; on success it applies the row change and
advances the tick. -/
def writeStep (oracle : Nat → Bool) (f : Db → Db) (db : Db) : GreaseResult Db :=
  if oracle db.tick then Except.error GreaseError.dbError
  else Except.ok { f db with tick := db.tick + 1 }

/-- `conn.transaction(...)`: the body's writes commit together on
success; on any failure every contained write is rolled back and storage
is exactly as it was. -/
def transaction (body : Db → GreaseResult Db) (db : Db) : Db × Option GreaseError :=
  match body db with
  | Except.ok db2 => (db2, none)
  | Except.error e => (db, some e)

/-- The per-row insert loop of `GigSong::update_for_event`. -/
def insertGigSongs (oracle : Nat → Bool) (songs : List GigSong) (db : Db) :
    GreaseResult Db :=
  match songs with
  | [] => Except.ok db
  | s :: rest =>
    writeStep oracle (fun d => { d with gigSongs := d.gigSongs ++ [s] }) db >>=
      insertGigSongs oracle rest

/-- The rows a submitted setlist is turned into: 1-based order by
position (`misc.rs:225`). -/
def setlistSongs (event_id : Int) (updated_setlist : List NewGigSong) :
    List GigSong :=
  updated_setlist.enum.map (fun p =>
    { event := event_id, song := p.2.song, order := (p.1 : Int) + 1 })

/-- `GigSong::update_for_event` (misc.rs:220): one transaction holding
the delete of the previous setlist and one insert per new row. -/
def GigSong.update_for_event (oracle : Nat → Bool) (event_id : Int)
    (updated_setlist : List NewGigSong) (db : Db) : Db × Option GreaseError :=
  let gig_songs := setlistSongs event_id updated_setlist
  transaction (fun t =>
    writeStep oracle
        (fun d => { d with
          gigSongs := d.gigSongs.filter (fun g => !(g.event == event_id)) }) t >>=
      insertGigSongs oracle gig_songs) db

/-- The per-member insert loop of `Todo::create`. -/
def insertTodos (oracle : Nat → Bool) (text : String) (members : List String)
    (db : Db) : GreaseResult Db :=
  match members with
  | [] => Except.ok db
  | m :: rest =>
    writeStep oracle (fun d => { d with todos := d.todos ++ [⟨text, m⟩] }) db >>=
      insertTodos oracle text rest

/-- `Todo::create` (misc.rs:266): one transaction holding one insert per
targeted member. -/
def Todo.create (oracle : Nat → Bool) (new_todo : NewTodo) (db : Db) :
    Db × Option GreaseError :=
  transaction (fun t => insertTodos oracle new_todo.text new_todo.members t) db

theorem transaction_rollback (body : Db → GreaseResult Db) (db : Db)
    (h : (transaction body db).2.isSome = true) : (transaction body db).1 = db := by
  unfold transaction at h ⊢
  cases hb : body db with
  | ok db2 => rw [hb] at h; simp at h
  | error e => rfl

theorem transaction_commit (body : Db → GreaseResult Db) (db : Db)
    (h : (transaction body db).2 = none) :
    body db = Except.ok (transaction body db).1 := by
  unfold transaction at h ⊢
  cases hb : body db with
  | ok db2 => rfl
  | error e => rw [hb] at h; simp at h

theorem insertGigSongs_gigSongs (oracle : Nat → Bool) (songs : List GigSong) :
    ∀ db db2, insertGigSongs oracle songs db = Except.ok db2 →
      db2.gigSongs = db.gigSongs ++ songs := by
  induction songs with
  | nil =>
    intro db db2 h
    simp only [insertGigSongs] at h
    injection h with h
    rw [← h]
    simp
  | cons s rest ih =>
    intro db db2 h
    simp only [insertGigSongs, writeStep] at h
    by_cases ho : oracle db.tick = true
    · rw [if_pos ho, error_bind] at h
      exact absurd h (by simp)
    · rw [if_neg ho, ok_bind] at h
      rw [ih _ _ h]
      simp

theorem insertTodos_todos (oracle : Nat → Bool) (text : String)
    (members : List String) :
    ∀ db db2, insertTodos oracle text members db = Except.ok db2 →
      db2.todos = db.todos ++ members.map (fun m => ⟨text, m⟩) := by
  induction members with
  | nil =>
    intro db db2 h
    simp only [insertTodos] at h
    injection h with h
    rw [← h]
    simp
  | cons m rest ih =>
    intro db db2 h
    simp only [insertTodos, writeStep] at h
    by_cases ho : oracle db.tick = true
    · rw [if_pos ho, error_bind] at h
      exact absurd h (by simp)
    · rw [if_neg ho, ok_bind] at h
      rw [ih _ _ h]
      simp

/-- C8: both multi-row writes — the setlist replace-all and the todo
fan-out — run inside one all-or-nothing transaction: whenever any
constituent write fails, storage is exactly as before; and on success
every write is applied in one batch. -/
theorem multi_row_writes_atomic (oracle : Nat → Bool) (event_id : Int)
    (updated_setlist : List NewGigSong) (new_todo : NewTodo) (db : Db) :
    ((GigSong.update_for_event oracle event_id updated_setlist db).2.isSome = true →
      (GigSong.update_for_event oracle event_id updated_setlist db).1 = db) ∧
    ((Todo.create oracle new_todo db).2.isSome = true →
      (Todo.create oracle new_todo db).1 = db) ∧
    ((GigSong.update_for_event oracle event_id updated_setlist db).2 = none →
      (GigSong.update_for_event oracle event_id updated_setlist db).1.gigSongs =
        db.gigSongs.filter (fun g => !(g.event == event_id)) ++
          setlistSongs event_id updated_setlist) ∧
    ((Todo.create oracle new_todo db).2 = none →
      (Todo.create oracle new_todo db).1.todos =
        db.todos ++ new_todo.members.map (fun m => ⟨new_todo.text, m⟩)) := by
  refine ⟨?_, ?_, ?_, ?_⟩
  · intro h
    simp only [GigSong.update_for_event] at h ⊢
    exact transaction_rollback _ db h
  · intro h
    simp only [Todo.create] at h ⊢
    exact transaction_rollback _ db h
  · intro h
    simp only [GigSong.update_for_event] at h ⊢
    have hb := transaction_commit _ db h
    simp only [writeStep] at hb ⊢
    by_cases ho : oracle db.tick = true
    · rw [if_pos ho, error_bind] at hb
      exact absurd hb (by simp)
    · rw [if_neg ho, ok_bind] at hb
      rw [insertGigSongs_gigSongs oracle _ _ _ hb]
  · intro h
    simp only [Todo.create] at h ⊢
    have hb := transaction_commit _ db h
    rw [insertTodos_todos oracle _ _ _ _ hb]

theorem multi_row_writes_atomic_witness :
    let oracle : Nat → Bool := fun n => decide (1 ≤ n)
    let db : Db :=
      { events := [], members := [], activeSemesters := [], attendance := [],
        absenceRequests := [], gigRequests := [],
        gigSongs := [⟨1, 10, 1⟩], todos := [], tick := 0 }
    let setlist : List NewGigSong := [⟨11⟩, ⟨12⟩]
    let new_todo : NewTodo := ⟨"hi", ["a@b.c", "b@b.c"]⟩
    ((GigSong.update_for_event oracle 1 setlist db).2.isSome = true →
      (GigSong.update_for_event oracle 1 setlist db).1 = db) ∧
    ((Todo.create oracle new_todo db).2.isSome = true →
      (Todo.create oracle new_todo db).1 = db) ∧
    ((GigSong.update_for_event oracle 1 setlist db).2 = none →
      (GigSong.update_for_event oracle 1 setlist db).1.gigSongs =
        db.gigSongs.filter (fun g => !(g.event == (1 : Int))) ++
          setlistSongs 1 setlist) ∧
    ((Todo.create oracle new_todo db).2 = none →
      (Todo.create oracle new_todo db).1.todos =
        db.todos ++ new_todo.members.map (fun m => ⟨new_todo.text, m⟩)) :=
  multi_row_writes_atomic _ 1 _ _ _

/-! ## The setlist route checks "edit-carpool" (`edit_setlist`) -/

/-- `edit_setlist` (event_routes.rs:463): the permission name checked is
"edit-carpool" (general or for the event's type); only then is the
setlist replaced. -/
def edit_setlist (oracle : Nat → Bool) (db : Db) (event_id : Int)
    (updated_setlist : List NewGigSong) (user : User) : Db × Option GreaseError :=
  match Event.load db event_id with
  | Except.error e => (db, some e)
  | Except.ok event =>
    if user.has_permission "edit-carpool" (some event.type_) then
      GigSong.update_for_event oracle event_id updated_setlist db
    else
      (db, some (GreaseError.forbidden (some "edit-carpool")))

/-- C10: `edit_setlist` performs the setlist replacement iff the caller
holds "edit-carpool" (general or scoped to the event's type) — that
permission name, not an "edit-setlist" one — and otherwise fails with
Forbidden("edit-carpool") leaving storage untouched. -/
theorem edit_setlist_requires_edit_carpool (oracle : Nat → Bool) (db : Db)
    (event_id : Int) (updated_setlist : List NewGigSong) (user : User)
    (event : Event) (hev : Event.load db event_id = Except.ok event) :
    (holdsMatchingGrant user "edit-carpool" (some event.type_) →
      edit_setlist oracle db event_id updated_setlist user =
        GigSong.update_for_event oracle event_id updated_setlist db) ∧
    (¬ holdsMatchingGrant user "edit-carpool" (some event.type_) →
      edit_setlist oracle db event_id updated_setlist user =
        (db, some (GreaseError.forbidden (some "edit-carpool")))) := by
  constructor
  · intro h
    have hp : user.has_permission "edit-carpool" (some event.type_) = true :=
      (has_permission_iff user "edit-carpool" (some event.type_)).mpr h
    unfold edit_setlist
    simp only [hev]
    rw [if_pos hp]
  · intro h
    have hp : ¬ user.has_permission "edit-carpool" (some event.type_) = true :=
      fun hc => h ((has_permission_iff user "edit-carpool" (some event.type_)).mp hc)
    unfold edit_setlist
    simp only [hev]
    rw [if_neg hp]

theorem edit_setlist_requires_edit_carpool_witness :
    let oracle : Nat → Bool := fun _ => false
    let db : Db :=
      { events := [⟨1, "gig", "Fall 2019"⟩], members := [], activeSemesters := [],
        attendance := [], absenceRequests := [], gigRequests := [],
        gigSongs := [], todos := [], tick := 0 }
    let user : User := ⟨⟨"o@b.c", none⟩, none, [⟨"edit-setlist", none⟩]⟩
    (holdsMatchingGrant user "edit-carpool" (some "gig") →
      edit_setlist oracle db 1 [⟨11⟩] user =
        GigSong.update_for_event oracle 1 [⟨11⟩] db) ∧
    (¬ holdsMatchingGrant user "edit-carpool" (some "gig") →
      edit_setlist oracle db 1 [⟨11⟩] user =
        (db, some (GreaseError.forbidden (some "edit-carpool")))) :=
  edit_setlist_requires_edit_carpool _ _ 1 _ _ ⟨1, "gig", "Fall 2019"⟩ rfl

end Grease
